import Mathlib

/-!
Shallow embedding of the SIMBA SDK request dispatch pipeline:
`simba_sdk/core/requests/client/base.py` (Client: build_url, _get_token,
get/post, send, authorise) and the generated endpoint layer
`simba_sdk/core/requests/client/credential/client.py`.

Python strings are Lean `String`s, dicts are association lists (the source
only ever builds them with unique keys), and `httpx.Response.json()` is an
oracle field on the response: `none` models a body that is not valid JSON.
The middleware manager composed with the transport
(`self.middleware_manager.send(request, self._client._transport)`) is a
parameter `transport : Request → Response`; each outcome records the list of
requests handed to it, so "transport invocation count" is its length.
-/

/-- A decoded JSON value, as returned by `httpx.Response.json()`. -/
inductive Json : Type where
  | str : String → Json
  | num : Int → Json
  | bool : Bool → Json
  | null : Json
  | arr : List Json → Json
  | obj : List (String × Json) → Json

/-- Python truthiness (`if token:`) of a decoded JSON value. -/
def Json.pytruthy : Json → Bool
  | .str s => s != ""
  | .num n => n != 0
  | .bool b => b
  | .null => false
  | .arr l => !l.isEmpty
  | .obj l => !l.isEmpty

/-- Python `str()` of a decoded JSON value, as interpolated into an f-string.
Containers are rendered with a fixed placeholder: no claim in this development
depends on the rendering of a non-scalar value, and every theorem below that
touches a rendered value restricts it to the scalar cases. -/
def Json.pystr : Json → String
  | .str s => s
  | .num n => toString n
  | .bool true => "True"
  | .bool false => "False"
  | .null => "None"
  | .arr _ => "[...]"
  | .obj _ => "(...)"

/-- An HTTP response as the dispatch pipeline observes it: status code, raw
body text (`resp.text`, which never raises), and the outcome of `resp.json()`
(`none` when the body is not valid JSON, in which case Python raises
`json.JSONDecodeError`). -/
structure Response where
  status_code : Nat
  text : String
  jsonBody : Option Json

/-- The request built by `httpx.AsyncClient.build_request` and handed to the
middleware manager. The upload-file payload is opaque. -/
structure Request where
  method : String
  url : String
  data : List (String × String)
  files : Option String
  params : List (String × String)
  headers : List (String × String)
  cookies : List (String × String)

/-- The Python exceptions the dispatch pipeline can raise or propagate:
`RequestException(status_code, message)` (simba_sdk.core.requests.exception),
`LookupError`, and the errors `resp.json()[key]` can raise
(`json.JSONDecodeError` for an invalid body, `TypeError` for subscripting a
non-dict decode result, `KeyError` for a missing key). -/
inductive PyError : Type where
  | requestException (status_code : Nat) (message : String)
  | lookupError (message : String)
  | keyError (key : String)
  | jsonDecodeError
  | typeError
deriving DecidableEq, Repr

/-- Python `resp.json()[key]`: `json.JSONDecodeError` when the body is not
valid JSON, `TypeError` when the decoded value is not a dict, `KeyError` when
the key is absent, the value otherwise. -/
def Response.jsonSubscript (resp : Response) (key : String) : Except PyError Json :=
  match resp.jsonBody with
  | none => .error .jsonDecodeError
  | some (.obj fields) =>
    match fields.find? (fun kv => kv.1 == key) with
    | some kv => .ok kv.2
    | none => .error (.keyError key)
  | some _ => .error .typeError

/-- Modelled from the spec: `BaseTokenStore`
(`simba_sdk/core/requests/auth/token_store.py`, absent from src/). Per §4.1 it
is a pluggable capability with `get_token(identifier) -> token|absent` (never
raising for an unknown identifier) and `set_token(identifier, token, expires)`
which stores/overwrites the token and expiry for the identifier. Modelled as
an association list keyed by the identifier, holding the token and expiry
values as stored. -/
abbrev TokenStore : Type := List (String × Json × Json)

/-- Modelled from the spec: `BaseTokenStore.get_token` (§4.1). -/
def TokenStore.get_token (store : TokenStore) (identifier : String) : Option Json :=
  match store.find? (fun e => e.1 == identifier) with
  | some e => some e.2.1
  | none => none

/-- Modelled from the spec: `BaseTokenStore.set_token` (§4.1), an overwrite. -/
def TokenStore.set_token (store : TokenStore) (identifier : String)
    (token expires : Json) : TokenStore :=
  (identifier, token, expires) :: store.filter (fun e => e.1 != identifier)

namespace settings

/-- External configuration (`simba_sdk.config.settings`, out of the spec's
scope): the OAuth2 client id used to key the token store. Its concrete value
is irrelevant to every claim. -/
def CLIENT_ID : String := "client-id"

/-- External configuration: the OAuth2 client secret. -/
def CLIENT_SECRET : String := "client-secret"

end settings

/-- Python `s.startswith(pre)` for a string argument: character-wise. -/
def pyStartsWith (s pre : String) : Bool := pre.data.isPrefixOf s.data

/-- The Client facade (base.py). Only the state the claims touch is carried:
the base URL fixed (and URL-validated) at construction, and the optional token
store. The httpx client, cookies/timeout defaults and middleware registry do
not affect any claim. -/
structure Client where
  base_url : String
  token_store : Option TokenStore

/-- Source method Client.build_url (base.py lines 61-65). -/
def Client.build_url (c : Client) (url : String) : String :=
  let url := if pyStartsWith url "/" then url else "/" ++ url
  c.base_url ++ url

/-- Source method Client._get_token (base.py lines 67-71): returns the store's token for
the configured client id, or raises `LookupError` when no store is
registered. -/
def Client._get_token (c : Client) : Except PyError (Option Json) :=
  match c.token_store with
  | some store => .ok (store.get_token settings.CLIENT_ID)
  | none => .error (.lookupError "No token_path store registered to this client")

/-- The outcome of a dispatch: the returned response or the raised exception,
plus every request handed to `middleware_manager.send`, in order. -/
structure SendOutcome where
  result : Except PyError Response
  sentRequests : List Request

/-- The response-classification tail of `Client.send` (base.py lines 195-204):
status < 300 is returned as-is, otherwise `error = resp.json()["detail"]` is
attempted with `except (KeyError, AttributeError): error = resp.text` and
`RequestException(status, "Request was unsuccessful: " + error)` is raised.
Errors of `resp.json()[...]` other than `KeyError` (no expression here raises
`AttributeError`) propagate uncaught. -/
def classifyResponse (resp : Response) : Except PyError Response :=
  if resp.status_code ≥ 300 then
    match resp.jsonSubscript "detail" with
    | .ok v =>
      .error (.requestException resp.status_code
        ("Request was unsuccessful: " ++ v.pystr))
    | .error (.keyError _) =>
      .error (.requestException resp.status_code
        ("Request was unsuccessful: " ++ resp.text))
    | .error e => .error e
  else .ok resp

/-- Source method Client.send (base.py lines 157-204): normalize absent collections to
empty ones, resolve the token, inject (replacing the headers dict) the bearer
header when the token is truthy, build the request, hand it to the middleware
manager, and classify the response with `classifyResponse`. -/
def Client.send (c : Client) (transport : Request → Response)
    (method url : String)
    (data : Option (List (String × String)))
    (upload_file : Option String)
    (params headers cookies : Option (List (String × String))) : SendOutcome :=
  let data := data.getD []
  let cookies := cookies.getD []
  let headers := headers.getD []
  let params := params.getD []
  match c._get_token with
  | .error e => { result := .error e, sentRequests := [] }
  | .ok token =>
    let headers :=
      match token with
      | some t =>
        if t.pytruthy then [("Authorization", "Bearer " ++ t.pystr)] else headers
      | none => headers
    let request : Request :=
      { method := method, url := c.build_url url, data := data, files := upload_file,
        params := params, headers := headers, cookies := cookies }
    let resp := transport request
    { result := classifyResponse resp, sentRequests := [request] }

/-- Source method Client.get (base.py lines 73-82). -/
def Client.get (c : Client) (transport : Request → Response) (url : String)
    (params headers cookies : Option (List (String × String))) : SendOutcome :=
  c.send transport "GET" url none none params headers cookies

/-- Source method Client.post (base.py lines 84-106): `if not upload_file and not data:`
raise `RequestException(400, ...)` — the spec's MalformedRequest — before any
transport call; otherwise delegate to `send` with method POST. A `None` or
empty data dict is falsy; a files payload is truthy whenever supplied. -/
def Client.post (c : Client) (transport : Request → Response) (url : String)
    (data : Option (List (String × String)))
    (upload_file : Option String)
    (params headers cookies : Option (List (String × String))) : SendOutcome :=
  if upload_file.isNone && (data.getD []).isEmpty then
    { result := .error (.requestException 400
        "Post requests must either send an upload_file or data."),
      sentRequests := [] }
  else
    c.send transport "POST" url data upload_file params headers cookies

/-- The outcome of an authorise call: the result, the token store afterwards, and
the requests handed to the middleware manager. -/
structure AuthoriseOutcome where
  result : Except PyError Unit
  token_store : Option TokenStore
  sentRequests : List Request

/-- Source method Client.authorise (base.py lines 206-236): POST the client-credentials
grant to `token_url` through the middleware manager; a non-200 status raises
`RequestException(status, "Authorization failed: " + resp.text)`; then a
missing token store raises `LookupError`; then
`set_token(settings.CLIENT_ID, resp.json()["access_token"],
resp.json()["expires_at"])` (whose subscript errors propagate uncaught). -/
def Client.authorise (c : Client) (transport : Request → Response)
    (token_url : String) (headers : Option (List (String × String))) :
    AuthoriseOutcome :=
  let headers := headers.getD []
  let request : Request :=
    { method := "POST", url := token_url,
      data := [("grant_type", "client_credentials"),
               ("client_id", settings.CLIENT_ID),
               ("client_secret", settings.CLIENT_SECRET)],
      files := none, params := [], headers := headers, cookies := [] }
  let resp := transport request
  if resp.status_code ≠ 200 then
    { result := .error (.requestException resp.status_code
        ("Authorization failed: " ++ resp.text)),
      token_store := c.token_store, sentRequests := [request] }
  else
    match c.token_store with
    | none =>
      { result := .error (.lookupError "No token_path store registered to this client"),
        token_store := none, sentRequests := [request] }
    | some store =>
      match resp.jsonSubscript "access_token" with
      | .error e =>
        { result := .error e, token_store := some store, sentRequests := [request] }
      | .ok tok =>
        match resp.jsonSubscript "expires_at" with
        | .error e =>
          { result := .error e, token_store := some store, sentRequests := [request] }
        | .ok expires =>
          { result := .ok (),
            token_store := some (store.set_token settings.CLIENT_ID tok expires),
            sentRequests := [request] }

/-- The dict comprehension shared verbatim by all twelve generated endpoint
methods that take a `query_arguments` dataclass (credential/client.py):
`query_params = (k: v for k, v in asdict(query_arguments).items() if v is not
None)`. The dataclass instance is modelled as an association list of optional
field values. -/
def dropNones {α : Type} (query_arguments : List (String × Option α)) :
    List (String × α) :=
  query_arguments.filterMap (fun kv => kv.2.map (fun v => (kv.1, v)))

/-- Python dict union `a | b` on association lists with unique keys: the keys
of `a` in their order (values overridden by `b` where `b` also binds the key),
followed by the keys of `b` not in `a`. -/
def pyDictUnion {α : Type} (a b : List (String × α)) : List (String × α) :=
  a.map (fun kv =>
    match b.find? (fun kv2 => kv2.1 == kv.1) with
    | some kv2 => (kv.1, kv2.2)
    | none => kv)
  ++ b.filter (fun kv2 => !a.any (fun kv => kv.1 == kv2.1))

/-- Source method CredentialClient.admin_list_vcs (credential/client.py lines 48-127):
drops the None-valued entries of the query dataclass, unions the result onto
the path parameters, and issues a GET via the inherited verb method. The
pydantic validation of the response body that follows touches no claim and is
not modelled. -/
def CredentialClient.admin_list_vcs (c : Client) (transport : Request → Response)
    (query_arguments : List (String × Option String)) (domain_name : String) :
    SendOutcome :=
  let query_params := dropNones query_arguments
  let path_params : List (String × String) := [("domain_name", domain_name)]
  c.get transport ("/admin/domains/" ++ domain_name ++ "/vcs/")
    (some (pyDictUnion path_params query_params)) none none

/-- Source method CredentialClient.list_did_strings (credential/client.py lines 235-269):
same shape with an empty path-parameter dict. -/
def CredentialClient.list_did_strings (c : Client) (transport : Request → Response)
    (query_arguments : List (String × Option String)) : SendOutcome :=
  let query_params := dropNones query_arguments
  let path_params : List (String × String) := []
  c.get transport "/dids/" (some (pyDictUnion path_params query_params)) none none

/-- The C8 claim's reading of `build_url` (spec §4.3): the base URL followed
by the path normalized to begin with exactly one leading separator, however
many leading separators the given path has. Stated from the spec's words, for
comparison with `Client.build_url`. -/
def build_url_single_separator (base path : String) : String :=
  base ++ "/" ++ String.mk (path.data.dropWhile (fun ch => ch == '/'))

/-- Does a dispatch outcome raise a `RequestException` (the spec's
RequestFailure)? -/
def SendOutcome.raisedRequestException (o : SendOutcome) : Bool :=
  match o.result with
  | .error (.requestException _ _) => true
  | _ => false


/-- C6: on a client constructed with no TokenStore, `send` raises the
missing-credential-store LookupError during token resolution and hands nothing
to the middleware manager or transport. -/
theorem claim_C6_missing_store (base : String) (transport : Request → Response)
    (method url : String) (data : Option (List (String × String)))
    (upload_file : Option String)
    (params headers cookies : Option (List (String × String))) :
    (Client.mk base none).send transport method url data upload_file params headers cookies
      = { result := .error (.lookupError "No token_path store registered to this client"),
          sentRequests := [] } := rfl

/-- C7: `build_url` is idempotent with respect to a leading separator: for a
path not beginning with "/", prepending one does not change the result; the
function is pure, so the client state is untouched. -/
theorem claim_C7_build_url_leading_separator (c : Client) (x : String)
    (h : pyStartsWith x "/" = false) :
    c.build_url x = c.build_url ("/" ++ x) := by
  have hpre : pyStartsWith ("/" ++ x) "/" = true := by
    simp [pyStartsWith, String.data_append, List.isPrefixOf]
  simp [Client.build_url, h, hpre]

/-- Witness for C7 at the concrete path "x". -/
theorem claim_C7_witness :
    (Client.mk "https://api.example" none).build_url "x"
      = (Client.mk "https://api.example" none).build_url ("/" ++ "x") :=
  claim_C7_build_url_leading_separator (Client.mk "https://api.example" none) "x" (by decide)

/-- C8 counterexample: on the path "//x" the code keeps both leading
separators, so the result does not begin with exactly one separator after the
base URL as the claim states. -/
theorem claim_C8_counterexample :
    (Client.mk "https://api.example" none).build_url "//x" = "https://api.example//x" ∧
    (Client.mk "https://api.example" none).build_url "//x"
      ≠ build_url_single_separator "https://api.example" "//x" := by
  exact ⟨by decide, by decide⟩

/-- C8 amended: `build_url` returns the base URL followed by the path
normalized to begin with at least one leading separator: a "/" is prepended
exactly when the path lacks one, and a path already starting with "/" (with
however many separators) is concatenated unchanged. -/
theorem claim_C8_build_url_normalization (c : Client) (path : String) :
    ∃ rest : String, c.build_url path = c.base_url ++ ("/" ++ rest) ∧
      (path = "/" ++ rest ∨ (pyStartsWith path "/" = false ∧ rest = path)) := by
  cases h : pyStartsWith path "/" with
  | false =>
    exact ⟨path, by simp [Client.build_url, h], Or.inr ⟨rfl, rfl⟩⟩
  | true =>
    obtain ⟨t, ht⟩ : ∃ t : List Char, path.data = '/' :: t := by
      cases hd : path.data with
      | nil => rw [pyStartsWith, hd] at h; simp [List.isPrefixOf] at h
      | cons b bs =>
        rw [pyStartsWith, hd] at h
        simp [List.isPrefixOf] at h
        exact ⟨bs, by rw [← h]⟩
    have hpath : path = "/" ++ String.mk t := by
      apply String.ext
      simp [String.data_append, ht]
    refine ⟨String.mk t, ?_, Or.inl hpath⟩
    simp [Client.build_url, h]
    rw [hpath]

/-- C5: `post` with a falsy body and no upload file raises the
MalformedRequest RequestException with no transport call; with a file or a
non-empty body it delegates to `send` with method POST. -/
theorem claim_C5_post_validation (base : String) (ts : Option TokenStore)
    (transport : Request → Response) (url : String)
    (data : Option (List (String × String))) (upload_file : Option String)
    (params headers cookies : Option (List (String × String))) :
    ((upload_file = none ∧ (data = none ∨ data = some [])) →
      (Client.mk base ts).post transport url data upload_file params headers cookies
        = { result := .error (.requestException 400
              "Post requests must either send an upload_file or data."),
            sentRequests := [] }) ∧
    ((upload_file ≠ none ∨ (∃ kv l, data = some (kv :: l))) →
      (Client.mk base ts).post transport url data upload_file params headers cookies
        = (Client.mk base ts).send transport "POST" url data upload_file params
            headers cookies) := by
  constructor
  · rintro ⟨hf, hd⟩
    subst hf
    rcases hd with hd | hd <;> subst hd <;> rfl
  · intro h
    have hcond : (upload_file.isNone && (data.getD []).isEmpty) = false := by
      rcases h with h | ⟨kv, l, hd⟩
      · cases upload_file with
        | none => exact absurd rfl h
        | some f => rfl
      · subst hd
        simp
    simp [Client.post, hcond]

/-- Witness for C5: the no-body no-file branch and the with-body branch at
concrete inputs. -/
theorem claim_C5_witness :
    ((Client.mk "https://api.example" none).post (fun _ => ⟨200, "", none⟩) "/x"
        none none none none none
      = { result := .error (.requestException 400
            "Post requests must either send an upload_file or data."),
          sentRequests := [] }) ∧
    ((Client.mk "https://api.example" none).post (fun _ => ⟨200, "", none⟩) "/x"
        (some [("a", "b")]) none none none none
      = (Client.mk "https://api.example" none).send (fun _ => ⟨200, "", none⟩) "POST" "/x"
          (some [("a", "b")]) none none none none) := by
  refine ⟨?_, ?_⟩
  · exact (claim_C5_post_validation _ _ _ _ _ _ _ _ _).1 ⟨rfl, Or.inl rfl⟩
  · exact (claim_C5_post_validation _ _ _ _ _ _ _ _ _).2 (Or.inr ⟨("a", "b"), [], rfl⟩)

/-- With a token store registered and a transport delivering `resp`, the
result of `send` is exactly the classification of `resp`: token resolution
succeeds and only the headers of the built request depend on the token. -/
theorem send_result_with_store (base : String) (store : TokenStore)
    (resp : Response) (method url : String)
    (data : Option (List (String × String))) (upload_file : Option String)
    (params headers cookies : Option (List (String × String))) :
    ((Client.mk base (some store)).send (fun _ => resp) method url data upload_file
        params headers cookies).result = classifyResponse resp := by
  simp [Client.send, Client._get_token]

/-- C1: when the registered token store yields a (non-empty) token, the single
request handed to the middleware manager carries exactly the one header
`Authorization: Bearer <token>`, replacing any caller-supplied headers; when
the store yields no token, the caller-supplied headers pass through
unchanged. -/
theorem claim_C1_bearer_header_replacement (base : String) (store : TokenStore)
    (transport : Request → Response) (method url : String)
    (data : Option (List (String × String))) (upload_file : Option String)
    (params headers cookies : Option (List (String × String))) :
    (∀ t : String, store.get_token settings.CLIENT_ID = some (.str t) → t ≠ "" →
      ((Client.mk base (some store)).send transport method url data upload_file
          params headers cookies).sentRequests.map Request.headers
        = [[("Authorization", "Bearer " ++ t)]]) ∧
    (store.get_token settings.CLIENT_ID = none →
      ((Client.mk base (some store)).send transport method url data upload_file
          params headers cookies).sentRequests.map Request.headers
        = [headers.getD []]) := by
  constructor
  · intro t hget ht
    simp [Client.send, Client._get_token, hget, Json.pytruthy, Json.pystr,
      bne_iff_ne, ht]
  · intro hget
    simp [Client.send, Client._get_token, hget]

/-- Witness for C1: a store holding the token "tok" yields the lone bearer
header; an empty store passes the caller's header through. -/
theorem claim_C1_witness :
    (((Client.mk "https://api.example"
          (some [(settings.CLIENT_ID, Json.str "tok", Json.null)])).send
        (fun _ => ⟨200, "", none⟩) "GET" "/x" none none none
        (some [("X-Custom", "1")]) none).sentRequests.map Request.headers
      = [[("Authorization", "Bearer " ++ "tok")]]) ∧
    (((Client.mk "https://api.example" (some [])).send (fun _ => ⟨200, "", none⟩)
        "GET" "/x" none none none (some [("X-Custom", "1")]) none).sentRequests.map
          Request.headers
      = [(some [("X-Custom", "1")] : Option (List (String × String))).getD []]) := by
  refine ⟨?_, ?_⟩
  · exact (claim_C1_bearer_header_replacement "https://api.example"
      [(settings.CLIENT_ID, Json.str "tok", Json.null)] (fun _ => ⟨200, "", none⟩)
      "GET" "/x" none none none (some [("X-Custom", "1")]) none).1 "tok" rfl (by decide)
  · exact (claim_C1_bearer_header_replacement "https://api.example" []
      (fun _ => ⟨200, "", none⟩) "GET" "/x" none none none
      (some [("X-Custom", "1")]) none).2 rfl

/-- C2 counterexample: a 400 response whose JSON body is an object binding
"detail" to "bad" yields the message "Request was unsuccessful: bad", which is
not equal to the detail field "bad" as the claim states. -/
theorem claim_C2_counterexample :
    ((Client.mk "https://api.example" (some [])).send
        (fun _ => ⟨400, "raw body", some (.obj [("detail", .str "bad")])⟩)
        "GET" "/x" none none none none none).result
      = .error (.requestException 400 "Request was unsuccessful: bad") ∧
    ("Request was unsuccessful: bad" : String) ≠ "bad" := by
  exact ⟨rfl, by decide⟩

/-- C2 amended: for a response with status ≥ 300 whose body decodes as a JSON
object, `send` raises a RequestException whose message is "Request was
unsuccessful: " followed by the object's "detail" value when that key is bound
(string case shown), else followed by the raw response text; when the body is
not valid JSON, the `json.JSONDecodeError` from `resp.json()` propagates
instead of a RequestException. -/
theorem claim_C2_error_message (base : String) (store : TokenStore)
    (method url : String)
    (data : Option (List (String × String))) (upload_file : Option String)
    (params headers cookies : Option (List (String × String)))
    (resp : Response) (h300 : 300 ≤ resp.status_code) :
    (∀ fields s, resp.jsonBody = some (.obj fields) →
      fields.find? (fun kv => kv.1 == "detail") = some ("detail", .str s) →
      ((Client.mk base (some store)).send (fun _ => resp) method url data upload_file
          params headers cookies).result
        = .error (.requestException resp.status_code
            ("Request was unsuccessful: " ++ s))) ∧
    (∀ fields, resp.jsonBody = some (.obj fields) →
      fields.find? (fun kv => kv.1 == "detail") = none →
      ((Client.mk base (some store)).send (fun _ => resp) method url data upload_file
          params headers cookies).result
        = .error (.requestException resp.status_code
            ("Request was unsuccessful: " ++ resp.text))) ∧
    (resp.jsonBody = none →
      ((Client.mk base (some store)).send (fun _ => resp) method url data upload_file
          params headers cookies).result = .error .jsonDecodeError) := by
  refine ⟨?_, ?_, ?_⟩
  · intro fields s hb hfind
    rw [send_result_with_store]
    simp [classifyResponse, Response.jsonSubscript, hb, hfind, h300, Json.pystr]
  · intro fields hb hfind
    rw [send_result_with_store]
    simp [classifyResponse, Response.jsonSubscript, hb, hfind, h300]
  · intro hb
    rw [send_result_with_store]
    simp [classifyResponse, Response.jsonSubscript, hb, h300]

/-- Witness for C2 amended: the detail-bound branch at a concrete 400
response. -/
theorem claim_C2_witness :
    300 ≤ 400 ∧
    ((Client.mk "https://api.example" (some [])).send
        (fun _ => ⟨400, "raw body", some (.obj [("detail", .str "bad")])⟩)
        "POST" "/y" none none none none none).result
      = .error (.requestException 400 ("Request was unsuccessful: " ++ "bad")) := by
  refine ⟨by decide, ?_⟩
  exact (claim_C2_error_message "https://api.example" [] "POST" "/y" none none none
    none none ⟨400, "raw body", some (.obj [("detail", .str "bad")])⟩
    (by decide)).1 [("detail", .str "bad")] "bad" rfl rfl

/-- C3 counterexample: a 400 response whose body is not valid JSON makes
`send` propagate `json.JSONDecodeError`, so a status ≥ 300 without any
RequestException being raised. -/
theorem claim_C3_counterexample :
    300 ≤ 400 ∧
    ((Client.mk "https://api.example" (some [])).send (fun _ => ⟨400, "oops", none⟩)
        "GET" "/x" none none none none none).result = .error .jsonDecodeError ∧
    ((Client.mk "https://api.example" (some [])).send (fun _ => ⟨400, "oops", none⟩)
        "GET" "/x" none none none none none).raisedRequestException = false := by
  exact ⟨by decide, rfl, rfl⟩

/-- C3 amended: `send` raises a RequestException carrying the delivered
response's status code exactly when that status is ≥ 300 and the body decodes
as a JSON object (otherwise the decode/subscript error propagates instead);
every response with status < 300 is returned to the caller unchanged. -/
theorem claim_C3_status_classification (base : String) (store : TokenStore)
    (method url : String)
    (data : Option (List (String × String))) (upload_file : Option String)
    (params headers cookies : Option (List (String × String)))
    (resp : Response) :
    ((∃ msg, ((Client.mk base (some store)).send (fun _ => resp) method url data
          upload_file params headers cookies).result
        = .error (.requestException resp.status_code msg))
      ↔ (300 ≤ resp.status_code ∧ ∃ fields, resp.jsonBody = some (.obj fields))) ∧
    (resp.status_code < 300 →
      ((Client.mk base (some store)).send (fun _ => resp) method url data upload_file
          params headers cookies).result = .ok resp) := by
  rw [send_result_with_store]
  constructor
  · constructor
    · rintro ⟨msg, hmsg⟩
      by_cases h : 300 ≤ resp.status_code
      · refine ⟨h, ?_⟩
        cases hb : resp.jsonBody with
        | none =>
          simp [classifyResponse, Response.jsonSubscript, hb, h] at hmsg
        | some j =>
          cases j with
          | obj fields => exact ⟨fields, rfl⟩
          | str s => simp [classifyResponse, Response.jsonSubscript, hb, h] at hmsg
          | num n => simp [classifyResponse, Response.jsonSubscript, hb, h] at hmsg
          | bool b => simp [classifyResponse, Response.jsonSubscript, hb, h] at hmsg
          | null => simp [classifyResponse, Response.jsonSubscript, hb, h] at hmsg
          | arr l => simp [classifyResponse, Response.jsonSubscript, hb, h] at hmsg
      · simp [classifyResponse, h] at hmsg
    · rintro ⟨h300, fields, hb⟩
      cases hfind : fields.find? (fun kv => kv.1 == "detail") with
      | some kv =>
        exact ⟨"Request was unsuccessful: " ++ kv.2.pystr,
          by simp [classifyResponse, Response.jsonSubscript, hb, hfind, h300]⟩
      | none =>
        exact ⟨"Request was unsuccessful: " ++ resp.text,
          by simp [classifyResponse, Response.jsonSubscript, hb, hfind, h300]⟩
  · intro hlt
    simp [classifyResponse, Nat.not_le.mpr hlt]

/-- Witness for C3 amended: a 204 response is returned unchanged, and a 404
response with a JSON-object body raises a RequestException carrying 404. -/
theorem claim_C3_witness :
    (((Client.mk "https://api.example" (some [])).send (fun _ => ⟨204, "", none⟩)
        "GET" "/x" none none none none none).result = .ok ⟨204, "", none⟩) ∧
    (∃ msg, ((Client.mk "https://api.example" (some [])).send
        (fun _ => ⟨404, "", some (.obj [("detail", .str "gone")])⟩)
        "GET" "/x" none none none none none).result
      = .error (.requestException 404 msg)) := by
  refine ⟨?_, ?_⟩
  · exact (claim_C3_status_classification "https://api.example" [] "GET" "/x" none
      none none none none ⟨204, "", none⟩).2 (by decide)
  · exact (claim_C3_status_classification "https://api.example" [] "GET" "/x" none
      none none none none ⟨404, "", some (.obj [("detail", .str "gone")])⟩).1.mpr
      ⟨by decide, [("detail", .str "gone")], rfl⟩

/-- Modelled from the spec (§4.1): a freshly set token is what `get_token`
returns for that identifier. -/
theorem TokenStore.get_token_set_token (store : TokenStore) (id : String)
    (tok expires : Json) :
    (store.set_token id tok expires).get_token id = some tok := by
  simp [TokenStore.get_token, TokenStore.set_token, List.find?]

/-- C4: `authorise` against a token endpoint answering 200 with
`access_token = "tok123"`, `expires_at = 1700000000` leaves the store holding
that token under the configured client id; any non-200 answer raises a
RequestException carrying the status and body text and leaves the store
exactly as it was. -/
theorem claim_C4_authorise_outcomes (base : String) (store : TokenStore)
    (token_url : String) (headers : Option (List (String × String))) :
    (∃ store2 : TokenStore,
      ((Client.mk base (some store)).authorise
          (fun _ => ⟨200, "",
            some (.obj [("access_token", .str "tok123"),
                        ("expires_at", .num 1700000000)])⟩)
          token_url headers).token_store = some store2 ∧
      store2.get_token settings.CLIENT_ID = some (.str "tok123") ∧
      ((Client.mk base (some store)).authorise
          (fun _ => ⟨200, "",
            some (.obj [("access_token", .str "tok123"),
                        ("expires_at", .num 1700000000)])⟩)
          token_url headers).result = .ok ()) ∧
    (∀ resp : Response, resp.status_code ≠ 200 →
      ((Client.mk base (some store)).authorise (fun _ => resp) token_url
          headers).result
        = .error (.requestException resp.status_code
            ("Authorization failed: " ++ resp.text)) ∧
      ((Client.mk base (some store)).authorise (fun _ => resp) token_url
          headers).token_store = some store) := by
  constructor
  · refine ⟨store.set_token settings.CLIENT_ID (.str "tok123") (.num 1700000000),
      ?_, TokenStore.get_token_set_token store settings.CLIENT_ID
        (.str "tok123") (.num 1700000000), ?_⟩
    · simp [Client.authorise, Response.jsonSubscript]
    · simp [Client.authorise, Response.jsonSubscript]
  · intro resp hne
    constructor
    · simp [Client.authorise, hne]
    · simp [Client.authorise, hne]

/-- Witness for C4: the success branch as stated, and the failure branch at a
concrete 401 response with body text "denied". -/
theorem claim_C4_witness :
    (∃ store2 : TokenStore,
      ((Client.mk "https://api.example" (some [])).authorise
          (fun _ => ⟨200, "",
            some (.obj [("access_token", .str "tok123"),
                        ("expires_at", .num 1700000000)])⟩)
          "https://auth.example/token" none).token_store = some store2 ∧
      store2.get_token settings.CLIENT_ID = some (.str "tok123") ∧
      ((Client.mk "https://api.example" (some [])).authorise
          (fun _ => ⟨200, "",
            some (.obj [("access_token", .str "tok123"),
                        ("expires_at", .num 1700000000)])⟩)
          "https://auth.example/token" none).result = .ok ()) ∧
    (((Client.mk "https://api.example" (some [])).authorise
        (fun _ => ⟨401, "denied", none⟩) "https://auth.example/token" none).result
      = .error (.requestException 401 ("Authorization failed: " ++ "denied")) ∧
     ((Client.mk "https://api.example" (some [])).authorise
        (fun _ => ⟨401, "denied", none⟩) "https://auth.example/token" none).token_store
      = some []) := by
  refine ⟨?_, ?_⟩
  · exact (claim_C4_authorise_outcomes "https://api.example" []
      "https://auth.example/token" none).1
  · exact (claim_C4_authorise_outcomes "https://api.example" []
      "https://auth.example/token" none).2 ⟨401, "denied", none⟩ (by decide)

/-- C10: on a client with no token store, a non-200 answer from the token
endpoint raises the RequestException carrying that status and the body text —
not the missing-store LookupError — and the LookupError is raised exactly when
the endpoint answers 200. -/
theorem claim_C10_authorise_check_order (base : String) (token_url : String)
    (headers : Option (List (String × String))) :
    (∀ resp : Response, resp.status_code ≠ 200 →
      ((Client.mk base none).authorise (fun _ => resp) token_url headers).result
        = .error (.requestException resp.status_code
            ("Authorization failed: " ++ resp.text))) ∧
    (∀ resp : Response, resp.status_code = 200 →
      ((Client.mk base none).authorise (fun _ => resp) token_url headers).result
        = .error (.lookupError "No token_path store registered to this client")) := by
  constructor
  · intro resp h
    simp [Client.authorise, h]
  · intro resp h
    simp [Client.authorise, h]

/-- Witness for C10: concrete 401 and 200 responses against a store-less
client. -/
theorem claim_C10_witness :
    (((Client.mk "https://api.example" none).authorise
        (fun _ => ⟨401, "denied", none⟩) "https://auth.example/token" none).result
      = .error (.requestException 401 ("Authorization failed: " ++ "denied"))) ∧
    (((Client.mk "https://api.example" none).authorise
        (fun _ => ⟨200, "", some (.obj [("access_token", .str "tok123")])⟩)
        "https://auth.example/token" none).result
      = .error (.lookupError "No token_path store registered to this client")) := by
  refine ⟨?_, ?_⟩
  · exact (claim_C10_authorise_check_order "https://api.example"
      "https://auth.example/token" none).1 ⟨401, "denied", none⟩ (by decide)
  · exact (claim_C10_authorise_check_order "https://api.example"
      "https://auth.example/token" none).2
      ⟨200, "", some (.obj [("access_token", .str "tok123")])⟩ rfl

/-- Python dict union with an empty left dict is the right dict. -/
theorem pyDictUnion_nil {α : Type} (b : List (String × α)) :
    pyDictUnion ([] : List (String × α)) b = b := by
  simp [pyDictUnion]

/-- C9: the generated endpoint methods taking a `query_arguments` dataclass
drop exactly the None-valued entries before issuing the request: the single
request each one hands to the middleware manager carries the filtered mapping
(unioned onto the path parameters for `admin_list_vcs`), and an entry survives
the filter exactly when it was a non-None entry of the dataclass. -/
theorem claim_C9_query_none_filtering (base : String) (store : TokenStore)
    (transport : Request → Response) (qa : List (String × Option String))
    (domain_name : String) :
    ((CredentialClient.list_did_strings (Client.mk base (some store)) transport
        qa).sentRequests.map Request.params = [dropNones qa]) ∧
    ((CredentialClient.admin_list_vcs (Client.mk base (some store)) transport qa
        domain_name).sentRequests.map Request.params
      = [pyDictUnion [("domain_name", domain_name)] (dropNones qa)]) ∧
    (∀ (k v : String), (k, v) ∈ dropNones qa ↔ (k, some v) ∈ qa) := by
  refine ⟨?_, ?_, ?_⟩
  · simp [CredentialClient.list_did_strings, Client.get, Client.send,
      Client._get_token, pyDictUnion_nil]
  · simp [CredentialClient.admin_list_vcs, Client.get, Client.send,
      Client._get_token]
  · intro k v
    simp [dropNones, List.mem_filterMap, Option.map_eq_some']
    constructor
    · rintro ⟨a, b, hmem, hb, ha⟩
      subst hb
      subst ha
      exact hmem
    · intro h
      exact ⟨k, some v, h, rfl, rfl⟩
